import Mathlib

/-!
Verification of the `geojson-cleaning` repository (scripts
`contar_ocorrencias_por_bairro.py`, `extrair_ocorrencias_por_estacao.py`,
`fix_all_geojson.py`) against its natural-language specification.

The Python code is shallowly embedded: pandas data frames become lists of
records with an explicit column list, Python dicts become association lists
or total functions with default `0` (matching `defaultdict(int)` /
`.get(k, 0)` / `.map(...).fillna(0)` reads), floats become rationals, and
fallible code returns `Except`.  External library calls (`pd.to_datetime`,
Python `float()`) are embedded as executable parsers covering the literal
formats the pipeline feeds them (ISO `YYYY-MM-DD` dates, decimal numerals).
-/

namespace GeojsonCleaning

/-- The four austral seasons returned by `determinar_estacao_hemisferio_sul`
(source strings `'verao'`, `'outono'`, `'inverno'`, `'primavera'`). -/
inductive Estacao where
  | verao
  | outono
  | inverno
  | primavera
deriving DecidableEq, Repr

/-- The season's string label, as produced by the Python functions and used
as dictionary key downstream. -/
def Estacao.nome : Estacao → String
  | .verao => "verao"
  | .outono => "outono"
  | .inverno => "inverno"
  | .primavera => "primavera"

/-- Digit value of a character (used by the embedded date / float parsers). -/
def digito (c : Char) : Nat := c.toNat - '0'.toNat

/-- Python `str.strip()`: drop leading and trailing whitespace (an
executable character-list embedding). -/
def pstrip (s : String) : String :=
  ⟨(((s.toList.dropWhile Char.isWhitespace).reverse.dropWhile Char.isWhitespace).reverse)⟩

example : pstrip "  Centro " = "Centro" := by decide
example : pstrip "" = "" := by decide

/-- Modelled from the spec / external library: `pd.to_datetime(s,
errors='coerce')` restricted to the ISO `YYYY-MM-DD` strings the pipeline's
data uses; every other string coerces to `NaT`, i.e. `none`.  Returns the
`(month, day)` pair — the year is irrelevant to season classification. -/
def parseData (s : String) : Option (Nat × Nat) :=
  match s.toList with
  | [y1, y2, y3, y4, '-', m1, m2, '-', d1, d2] =>
    if (y1.isDigit && y2.isDigit && y3.isDigit && y4.isDigit &&
        m1.isDigit && m2.isDigit && d1.isDigit && d2.isDigit) then
      let m := 10 * digito m1 + digito m2
      let d := 10 * digito d1 + digito d2
      if 1 ≤ m && m ≤ 12 && 1 ≤ d && d ≤ 31 then some (m, d) else none
    else none
  | _ => none

/-- A Python value passed to `determinar_estacao_hemisferio_sul`
(`data_valor`): `null` covers `None`/`NaN` (`pd.isna` true), `timestamp`
covers `pd.Timestamp`/`datetime` values (already parsed, carrying month and
day), `str` a raw string, and `outro` any other (unsupported) runtime type. -/
inductive DataValor where
  | null
  | timestamp (mes dia : Nat)
  | str (s : String)
  | outro
deriving DecidableEq, Repr

/-- Lines 183–221 of `contar_ocorrencias_por_bairro.py` (and identically
lines 50–88 of `extrair_ocorrencias_por_estacao.py`): the `if`/`elif`
cascade mapping a month and day to a season, with the trailing `else:
return None`. -/
def estacaoDeMesDia (mes dia : Nat) : Option Estacao :=
  if mes = 12 ∧ dia ≥ 21 then some .verao
  else if mes = 1 ∨ mes = 2 then some .verao
  else if mes = 3 ∧ dia < 20 then some .verao
  else if mes = 3 ∧ dia ≥ 20 then some .outono
  else if mes = 4 ∨ mes = 5 then some .outono
  else if mes = 6 ∧ dia < 20 then some .outono
  else if mes = 6 ∧ dia ≥ 20 then some .inverno
  else if mes = 7 ∨ mes = 8 then some .inverno
  else if mes = 9 ∧ dia < 22 then some .inverno
  else if mes = 9 ∧ dia ≥ 22 then some .primavera
  else if mes = 10 ∨ mes = 11 then some .primavera
  else if mes = 12 ∧ dia < 21 then some .primavera
  else none

/-- `determinar_estacao_hemisferio_sul` (duplicated verbatim in both
pipeline scripts): `None`/`NaN` yields `None`; a timestamp is classified by
its month and day; a string is first parsed (`errors='coerce'`, so an
unparseable string yields `None`); any other input type yields `None`.  The
whole body is wrapped in `try/except: return None`, so in the embedding the
function is total. -/
def determinar_estacao_hemisferio_sul : DataValor → Option Estacao
  | .null => none
  | .timestamp mes dia => estacaoDeMesDia mes dia
  | .str s =>
    match parseData s with
    | none => none
    | some (m, d) => estacaoDeMesDia m d
  | .outro => none

example : determinar_estacao_hemisferio_sul (.str "2024-01-15") = some .verao := by decide
example : determinar_estacao_hemisferio_sul (.str "2024-07-10") = some .inverno := by decide
example : determinar_estacao_hemisferio_sul (.str "") = none := by decide
example : determinar_estacao_hemisferio_sul (.str "not-a-date") = none := by decide
example : estacaoDeMesDia 3 20 = some .outono := by decide

/-- One row of the occurrence `GeoDataFrame` consumed by
`contar_ocorrencias_por_bairro`.  `none` stands for a `NaN` cell (`pd.isna`
true); the three candidate date columns carry arbitrary cell values.  A
column that is absent from the frame's schema is recorded in
`Ocorrencias.colunas`, and its cell values are never read. -/
structure Linha where
  bairro : Option String
  tipo : Option String
  data_inicio : DataValor
  data_fim : DataValor
  data_particao : DataValor
deriving DecidableEq, Repr

/-- The occurrence `GeoDataFrame`: its column list (schema) and its rows. -/
structure Ocorrencias where
  colunas : List String
  linhas : List Linha
deriving Repr

/-- `row[c]` for the three recognized date columns. -/
def valorColuna (r : Linha) (c : String) : DataValor :=
  if c = "data_inicio" then r.data_inicio
  else if c = "data_fim" then r.data_fim
  else if c = "data_particao" then r.data_particao
  else .null

/-- Lines 252–256: the first of `data_inicio`, `data_fim`, `data_particao`
present in the frame's columns (or `none`). -/
def colunaDataDe (colunas : List String) : Option String :=
  (["data_inicio", "data_fim", "data_particao"]).find? (fun c => colunas.contains c)

/-- The season computed for one row (lines 284–287): `None` when no date
column was found, otherwise `determinar_estacao_hemisferio_sul` of the
row's cell in the chosen column. -/
def estacaoDaLinha (colData : Option String) (r : Linha) : Option Estacao :=
  match colData with
  | none => none
  | some c => determinar_estacao_hemisferio_sul (valorColuna r c)

/-- The three nested `defaultdict(int)` count tables built by the loop in
`contar_ocorrencias_por_bairro` (lines 269–275), denoted as total functions
with default value `0`. -/
structure TabelasAninhadas where
  porTipo : String → String → Nat
  porEstacao : String → Estacao → Nat
  porTipoEstacao : String → String → Estacao → Nat

/-- The freshly created empty `defaultdict`s. -/
def tabelasVazias : TabelasAninhadas :=
  ⟨fun _ _ => 0, fun _ _ => 0, fun _ _ _ => 0⟩

/-- `contagem_por_tipo[bairro][tipo] += 1`. -/
def bumpTipo (f : String → String → Nat) (b t : String) : String → String → Nat :=
  fun b2 t2 => if b2 = b ∧ t2 = t then f b2 t2 + 1 else f b2 t2

/-- `contagem_por_estacao[bairro][estacao] += 1`. -/
def bumpEstacao (f : String → Estacao → Nat) (b : String) (s : Estacao) :
    String → Estacao → Nat :=
  fun b2 s2 => if b2 = b ∧ s2 = s then f b2 s2 + 1 else f b2 s2

/-- `contagem_por_tipo_estacao[bairro][tipo][estacao] += 1`. -/
def bumpTipoEstacao (f : String → String → Estacao → Nat) (b t : String) (s : Estacao) :
    String → String → Estacao → Nat :=
  fun b2 t2 s2 => if b2 = b ∧ t2 = t ∧ s2 = s then f b2 t2 s2 + 1 else f b2 t2 s2

/-- The body of the row loop (lines 278–301): skip `NaN` neighborhoods,
classify the row's season once, count by type when the type column exists
and the cell is non-null, count by type and season, and count by season. -/
def passoContagem (tipoDisp : Bool) (colData : Option String)
    (acc : TabelasAninhadas) (r : Linha) : TabelasAninhadas :=
  match r.bairro with
  | none => acc
  | some b =>
    let estacao := estacaoDaLinha colData r
    let acc1 :=
      if tipoDisp then
        match r.tipo with
        | some t =>
          let acc2 := { acc with porTipo := bumpTipo acc.porTipo b t }
          match estacao with
          | some s => { acc2 with porTipoEstacao := bumpTipoEstacao acc2.porTipoEstacao b t s }
          | none => acc2
        | none => acc
      else acc
    match estacao with
    | some s => { acc1 with porEstacao := bumpEstacao acc1.porEstacao b s }
    | none => acc1

/-- The aggregator's result: the `groupby('bairro').size()` dictionary and
the three nested tables, each denoted as a total function defaulting to `0`
(downstream reads use `.get(k, 0)` / `.map(...).fillna(0)`). -/
structure Contagens where
  total : String → Nat
  porTipo : String → String → Nat
  porEstacao : String → Estacao → Nat
  porTipoEstacao : String → String → Estacao → Nat

/-- Line 266, `gdf_ocorrencias.groupby('bairro').size().to_dict()`: the
number of rows per raw (un-normalized) neighborhood key; `groupby` drops
`NaN` keys, so only rows with a non-null `bairro` are counted. -/
def totalPorBairro (df : Ocorrencias) : String → Nat :=
  fun b => (df.linhas.filter (fun r => r.bairro == some b)).length

/-- Lines 277–301: the row loop runs only when the `tipo` column or a date
column is available (`if tipo_disponivel or estacao_disponivel:`);
otherwise the three nested tables stay empty. -/
def tabelasDe (df : Ocorrencias) : TabelasAninhadas :=
  if df.colunas.contains "tipo" || (colunaDataDe df.colunas).isSome then
    df.linhas.foldl
      (passoContagem (df.colunas.contains "tipo") (colunaDataDe df.colunas)) tabelasVazias
  else tabelasVazias

/-- `contar_ocorrencias_por_bairro` (lines 226–308): raises `ValueError`
when the `bairro` column is absent; otherwise returns the `groupby` total
and the three loop tables. -/
def contar_ocorrencias_por_bairro (df : Ocorrencias) : Except String Contagens :=
  if ¬ df.colunas.contains "bairro" then
    .error ("Coluna bairro nao encontrada nas ocorrencias")
  else
    .ok ⟨totalPorBairro df, (tabelasDe df).porTipo, (tabelasDe df).porEstacao,
      (tabelasDe df).porTipoEstacao⟩

/-- The aggregator's count tables when it succeeds (all-zero tables
otherwise); lets concrete runs be evaluated without destructuring. -/
def contagensDe (df : Ocorrencias) : Contagens :=
  match contar_ocorrencias_por_bairro df with
  | .ok c => c
  | .error _ => ⟨fun _ => 0, fun _ _ => 0, fun _ _ => 0, fun _ _ _ => 0⟩

/-- Whether the aggregator ran without raising. -/
def contagemOk (df : Ocorrencias) : Bool :=
  match contar_ocorrencias_por_bairro df with
  | .ok _ => true
  | .error _ => false

theorem bumpTipo_apply (f : String → String → Nat) (b t b2 t2 : String) :
    bumpTipo f b t b2 t2 = if b2 = b ∧ t2 = t then f b2 t2 + 1 else f b2 t2 := rfl

theorem bumpEstacao_apply (f : String → Estacao → Nat) (b b2 : String) (s s2 : Estacao) :
    bumpEstacao f b s b2 s2 = if b2 = b ∧ s2 = s then f b2 s2 + 1 else f b2 s2 := rfl

theorem bumpTipoEstacao_apply (f : String → String → Estacao → Nat) (b t b2 t2 : String)
    (s s2 : Estacao) :
    bumpTipoEstacao f b t s b2 t2 s2 =
      if b2 = b ∧ t2 = t ∧ s2 = s then f b2 t2 s2 + 1 else f b2 t2 s2 := rfl

/-- One loop step adds `1` to `contagem_por_estacao[b][s]` exactly when the
row's neighborhood is `b` and its classified season is `s`. -/
theorem passoContagem_porEstacao (td : Bool) (cd : Option String)
    (acc : TabelasAninhadas) (r : Linha) (b : String) (s : Estacao) :
    (passoContagem td cd acc r).porEstacao b s =
      acc.porEstacao b s +
        (if (r.bairro == some b && estacaoDaLinha cd r == some s) = true then 1 else 0) := by
  rcases hb : r.bairro with _ | b0
  · simp [passoContagem, hb]
  · rcases hs : estacaoDaLinha cd r with _ | s0 <;>
      cases td <;> rcases ht : r.tipo with _ | t0 <;>
      simp [passoContagem, hb, hs, ht, bumpEstacao_apply] <;>
      by_cases h1 : b = b0 <;> by_cases h2 : s = s0 <;>
      simp [h1, h2] <;> simp_all [eq_comm]

/-- One loop step adds `1` to `contagem_por_tipo[b][t]` exactly when the
type column exists, the row's neighborhood is `b` and its type is `t`. -/
theorem passoContagem_porTipo (td : Bool) (cd : Option String)
    (acc : TabelasAninhadas) (r : Linha) (b t : String) :
    (passoContagem td cd acc r).porTipo b t =
      acc.porTipo b t +
        (if (td && r.bairro == some b && r.tipo == some t) = true then 1 else 0) := by
  rcases hb : r.bairro with _ | b0
  · simp [passoContagem, hb]
  · rcases hs : estacaoDaLinha cd r with _ | s0 <;>
      cases td <;> rcases ht : r.tipo with _ | t0 <;>
      simp [passoContagem, hb, hs, ht, bumpTipo_apply] <;>
      by_cases h1 : b = b0 <;> by_cases h2 : t = t0 <;>
      simp [h1, h2] <;> simp_all [eq_comm]

/-- One loop step adds `1` to `contagem_por_tipo_estacao[b][t][s]` exactly
when the type column exists and the row matches neighborhood, type and
season. -/
theorem passoContagem_porTipoEstacao (td : Bool) (cd : Option String)
    (acc : TabelasAninhadas) (r : Linha) (b t : String) (s : Estacao) :
    (passoContagem td cd acc r).porTipoEstacao b t s =
      acc.porTipoEstacao b t s +
        (if (td && r.bairro == some b && r.tipo == some t &&
              estacaoDaLinha cd r == some s) = true then 1 else 0) := by
  rcases hb : r.bairro with _ | b0
  · simp [passoContagem, hb]
  · rcases hs : estacaoDaLinha cd r with _ | s0 <;>
      cases td <;> rcases ht : r.tipo with _ | t0 <;>
      simp [passoContagem, hb, hs, ht, bumpTipoEstacao_apply] <;>
      by_cases h1 : b = b0 <;> by_cases h2 : t = t0 <;> by_cases h3 : s = s0 <;>
      simp [h1, h2, h3] <;> simp_all [eq_comm]

/-- Running the whole loop: `contagem_por_estacao[b][s]` counts the rows
with neighborhood `b` whose date cell classifies to season `s`. -/
theorem foldl_porEstacao (td : Bool) (cd : Option String) (l : List Linha)
    (acc : TabelasAninhadas) (b : String) (s : Estacao) :
    (l.foldl (passoContagem td cd) acc).porEstacao b s =
      acc.porEstacao b s +
        l.countP (fun r => r.bairro == some b && estacaoDaLinha cd r == some s) := by
  induction l generalizing acc with
  | nil => simp
  | cons r l ih =>
    simp only [List.foldl_cons, List.countP_cons, ih, passoContagem_porEstacao]
    split <;> omega

/-- Running the whole loop: `contagem_por_tipo[b][t]` counts the rows with
neighborhood `b` and type `t` (when the type column exists). -/
theorem foldl_porTipo (td : Bool) (cd : Option String) (l : List Linha)
    (acc : TabelasAninhadas) (b t : String) :
    (l.foldl (passoContagem td cd) acc).porTipo b t =
      acc.porTipo b t +
        l.countP (fun r => td && r.bairro == some b && r.tipo == some t) := by
  induction l generalizing acc with
  | nil => simp
  | cons r l ih =>
    simp only [List.foldl_cons, List.countP_cons, ih, passoContagem_porTipo]
    split <;> omega

/-- Running the whole loop: `contagem_por_tipo_estacao[b][t][s]` counts the
rows matching neighborhood, type and season. -/
theorem foldl_porTipoEstacao (td : Bool) (cd : Option String) (l : List Linha)
    (acc : TabelasAninhadas) (b t : String) (s : Estacao) :
    (l.foldl (passoContagem td cd) acc).porTipoEstacao b t s =
      acc.porTipoEstacao b t s +
        l.countP (fun r => td && r.bairro == some b && r.tipo == some t &&
          estacaoDaLinha cd r == some s) := by
  induction l generalizing acc with
  | nil => simp
  | cons r l ih =>
    simp only [List.foldl_cons, List.countP_cons, ih, passoContagem_porTipoEstacao]
    split <;> omega

/-- `contagem_por_tipo[b][t]` counts the rows with neighborhood `b` and
type `t` (and is zero when the `tipo` column is absent). -/
theorem tabelasDe_porTipo (df : Ocorrencias) (b t : String) :
    (tabelasDe df).porTipo b t = df.linhas.countP
      (fun r => df.colunas.contains "tipo" && r.bairro == some b && r.tipo == some t) := by
  rw [tabelasDe]
  split
  · simp [foldl_porTipo, tabelasVazias]
  · rename_i hcase
    rw [Bool.or_eq_true, not_or, Bool.not_eq_true, Bool.not_eq_true] at hcase
    simp only [tabelasVazias]
    rw [eq_comm, List.countP_eq_zero]
    intro r _ hmem
    rw [hcase.1] at hmem
    simp at hmem

/-- `contagem_por_estacao[b][s]` counts the rows with neighborhood `b`
whose date cell classifies to season `s` (and is zero when no date column
was found). -/
theorem tabelasDe_porEstacao (df : Ocorrencias) (b : String) (s : Estacao) :
    (tabelasDe df).porEstacao b s = df.linhas.countP
      (fun r => r.bairro == some b &&
        estacaoDaLinha (colunaDataDe df.colunas) r == some s) := by
  rw [tabelasDe]
  split
  · simp [foldl_porEstacao, tabelasVazias]
  · rename_i hcase
    rw [Bool.or_eq_true, not_or, Bool.not_eq_true, Bool.not_eq_true] at hcase
    have hcd : colunaDataDe df.colunas = none := by
      rcases hx : colunaDataDe df.colunas with _ | c
      · rfl
      · rw [hx] at hcase
        exact absurd hcase.2 (by simp)
    simp only [tabelasVazias]
    rw [eq_comm, List.countP_eq_zero]
    intro r _
    simp [estacaoDaLinha, hcd]

/-- `contagem_por_tipo_estacao[b][t][s]` counts the rows matching
neighborhood, type and season. -/
theorem tabelasDe_porTipoEstacao (df : Ocorrencias) (b t : String) (s : Estacao) :
    (tabelasDe df).porTipoEstacao b t s = df.linhas.countP
      (fun r => df.colunas.contains "tipo" && r.bairro == some b && r.tipo == some t &&
        estacaoDaLinha (colunaDataDe df.colunas) r == some s) := by
  rw [tabelasDe]
  split
  · simp [foldl_porTipoEstacao, tabelasVazias]
  · rename_i hcase
    rw [Bool.or_eq_true, not_or, Bool.not_eq_true, Bool.not_eq_true] at hcase
    simp only [tabelasVazias]
    rw [eq_comm, List.countP_eq_zero]
    intro r _ hmem
    rw [hcase.1] at hmem
    simp at hmem

/-- When `bairro` exists the aggregator succeeds, with the loop tables. -/
theorem contar_ok (df : Ocorrencias) (h : df.colunas.contains "bairro" = true) :
    contar_ocorrencias_por_bairro df = .ok ⟨totalPorBairro df, (tabelasDe df).porTipo,
      (tabelasDe df).porEstacao, (tabelasDe df).porTipoEstacao⟩ := by
  rw [contar_ocorrencias_por_bairro, if_neg (by simpa using h)]

/-- The aggregator raises exactly when `bairro` is absent. -/
theorem contar_error_sse (df : Ocorrencias) :
    (∃ e, contar_ocorrencias_por_bairro df = .error e) ↔
      df.colunas.contains "bairro" = false := by
  constructor
  · rintro ⟨e, he⟩
    by_contra hc
    have h : df.colunas.contains "bairro" = true := by
      cases hx : df.colunas.contains "bairro"
      · exact absurd hx hc
      · rfl
    rw [contar_ok df h] at he
    exact Except.noConfusion he
  · intro h
    refine ⟨"Coluna bairro nao encontrada nas ocorrencias", ?_⟩
    rw [contar_ocorrencias_por_bairro, if_pos (by simpa using h)]

/-- When `bairro` exists, the count tables read back from the aggregator. -/
theorem contagensDe_eq (df : Ocorrencias) (h : df.colunas.contains "bairro" = true) :
    contagensDe df = ⟨totalPorBairro df, (tabelasDe df).porTipo,
      (tabelasDe df).porEstacao, (tabelasDe df).porTipoEstacao⟩ := by
  unfold contagensDe
  rw [contar_ok df h]

/-- The aggregator runs without raising exactly when `bairro` exists. -/
theorem contagemOk_eq_contains (df : Ocorrencias) :
    contagemOk df = df.colunas.contains "bairro" := by
  unfold contagemOk
  cases hx : df.colunas.contains "bairro"
  · rw [contar_ocorrencias_por_bairro, if_pos (by simpa using hx)]
  · rw [contar_ok df hx]

/-- Over any row list, the four per-season counts for a fixed neighborhood
sum to at most the number of rows of that neighborhood. -/
theorem countP_estacoes_le (l : List Linha) (cd : Option String) (b : String) :
    l.countP (fun r => r.bairro == some b && estacaoDaLinha cd r == some Estacao.verao) +
      l.countP (fun r => r.bairro == some b && estacaoDaLinha cd r == some Estacao.outono) +
      l.countP (fun r => r.bairro == some b && estacaoDaLinha cd r == some Estacao.inverno) +
      l.countP (fun r => r.bairro == some b && estacaoDaLinha cd r == some Estacao.primavera) ≤
      l.countP (fun r => r.bairro == some b) := by
  induction l with
  | nil => simp
  | cons r l ih =>
    simp only [List.countP_cons]
    rcases hs : estacaoDaLinha cd r with _ | s <;>
      by_cases hb : (r.bairro == some b) = true
    · simp [hs, hb]
      omega
    · simp [hs, hb]
      omega
    · cases s <;> simp [hs, hb] <;> omega
    · cases s <;> simp [hs, hb] <;> omega

end GeojsonCleaning

namespace GeojsonCleaning

/-- C2: for every valid (month, day) pair the classifier returns one of the
four season labels — the four ranges are exhaustive, the `None` fallthrough
is unreachable — and the eight boundary dates classify as specified
(inclusive start boundaries). -/
theorem classificador_exaustivo_e_fronteiras (m d : Nat)
    (hm1 : 1 ≤ m) (hm2 : m ≤ 12) (hd1 : 1 ≤ d) (hd2 : d ≤ 31) :
    (determinar_estacao_hemisferio_sul (.timestamp m d)).isSome = true ∧
    determinar_estacao_hemisferio_sul (.timestamp 3 20) = some .outono ∧
    determinar_estacao_hemisferio_sul (.timestamp 6 20) = some .inverno ∧
    determinar_estacao_hemisferio_sul (.timestamp 9 22) = some .primavera ∧
    determinar_estacao_hemisferio_sul (.timestamp 12 21) = some .verao ∧
    determinar_estacao_hemisferio_sul (.timestamp 3 19) = some .verao ∧
    determinar_estacao_hemisferio_sul (.timestamp 6 19) = some .outono ∧
    determinar_estacao_hemisferio_sul (.timestamp 9 21) = some .inverno ∧
    determinar_estacao_hemisferio_sul (.timestamp 12 20) = some .primavera := by
  refine ⟨?_, by decide, by decide, by decide, by decide,
    by decide, by decide, by decide, by decide⟩
  interval_cases m <;> interval_cases d <;> decide

/-- Witness for C2 at the concrete valid date May 10. -/
theorem classificador_exaustivo_e_fronteiras_witness :
    (determinar_estacao_hemisferio_sul (.timestamp 5 10)).isSome = true :=
  (classificador_exaustivo_e_fronteiras 5 10 (by decide) (by decide)
    (by decide) (by decide)).1

/-- C3: the classifier is total (the Python body is wrapped in
`try/except: return None`): null/`NaN` input, any string that does not
parse as a date, and any unsupported input type all yield `None` rather
than raising. -/
theorem classificador_nunca_levanta :
    determinar_estacao_hemisferio_sul .null = none ∧
    (∀ s : String, parseData s = none → determinar_estacao_hemisferio_sul (.str s) = none) ∧
    determinar_estacao_hemisferio_sul .outro = none := by
  refine ⟨rfl, ?_, rfl⟩
  intro s hs
  simp [determinar_estacao_hemisferio_sul, hs]

/-- Witness for C3 at the unparseable string of the spec. -/
theorem classificador_nunca_levanta_witness :
    parseData "not-a-date" = none ∧
    determinar_estacao_hemisferio_sul (.str "not-a-date") = none :=
  ⟨by decide, classificador_nunca_levanta.2.1 "not-a-date" (by decide)⟩

/-- C4: the aggregator raises exactly when the `bairro` column is absent;
with `bairro` present it succeeds even without the `tipo` column (type and
type-by-season tables stay empty) and without any date column (season
tables stay empty), still computing the per-neighborhood totals. -/
theorem esquema_bairro_fatal (df : Ocorrencias) :
    ((∃ e, contar_ocorrencias_por_bairro df = .error e) ↔
      df.colunas.contains "bairro" = false) ∧
    (df.colunas.contains "bairro" = true →
      contagemOk df = true ∧
      (df.colunas.contains "tipo" = false →
        (∀ b t, (contagensDe df).porTipo b t = 0) ∧
        (∀ b t s, (contagensDe df).porTipoEstacao b t s = 0)) ∧
      (colunaDataDe df.colunas = none →
        (∀ b s, (contagensDe df).porEstacao b s = 0) ∧
        (∀ b t s, (contagensDe df).porTipoEstacao b t s = 0)) ∧
      (∀ b, (contagensDe df).total b =
        (df.linhas.filter (fun r => r.bairro == some b)).length)) := by
  refine ⟨contar_error_sse df, fun h => ⟨?_, ?_, ?_, ?_⟩⟩
  · rw [contagemOk_eq_contains, h]
  · intro ht
    constructor
    · intro b t
      rw [contagensDe_eq df h]
      show (tabelasDe df).porTipo b t = 0
      rw [tabelasDe_porTipo, List.countP_eq_zero]
      intro r _ hmem
      rw [ht] at hmem
      simp at hmem
    · intro b t s
      rw [contagensDe_eq df h]
      show (tabelasDe df).porTipoEstacao b t s = 0
      rw [tabelasDe_porTipoEstacao, List.countP_eq_zero]
      intro r _ hmem
      rw [ht] at hmem
      simp at hmem
  · intro hd
    constructor
    · intro b s
      rw [contagensDe_eq df h]
      show (tabelasDe df).porEstacao b s = 0
      rw [tabelasDe_porEstacao, List.countP_eq_zero]
      intro r _
      simp [estacaoDaLinha, hd]
    · intro b t s
      rw [contagensDe_eq df h]
      show (tabelasDe df).porTipoEstacao b t s = 0
      rw [tabelasDe_porTipoEstacao, List.countP_eq_zero]
      intro r _
      simp [estacaoDaLinha, hd]
  · intro b
    rw [contagensDe_eq df h]
    rfl

/-- A frame with `bairro` and a date column but no `tipo` column. -/
def dfSemTipo : Ocorrencias :=
  ⟨["bairro", "data_inicio"], [⟨some "Centro", none, .str "2024-01-15", .null, .null⟩]⟩

/-- Witness for C4: on a frame lacking `tipo` the aggregator still
succeeds, with an empty type table but a computed total. -/
theorem esquema_bairro_fatal_witness :
    contagemOk dfSemTipo = true ∧
    (contagensDe dfSemTipo).porTipo "Centro" "Alagamento" = 0 ∧
    (contagensDe dfSemTipo).total "Centro" = 1 := by
  have h := (esquema_bairro_fatal dfSemTipo).2 (by decide)
  refine ⟨h.1, (h.2.1 (by decide)).1 "Centro" "Alagamento", ?_⟩
  rw [h.2.2.2 "Centro"]
  decide

/-- C5: for every input frame accepted by the aggregator and every
neighborhood, the per-season counts sum to at most the total count —
records without a classifiable date count toward the total only. -/
theorem soma_estacoes_le_total (df : Ocorrencias) (R : Contagens)
    (h : contar_ocorrencias_por_bairro df = .ok R) (b : String) :
    R.porEstacao b .verao + R.porEstacao b .outono + R.porEstacao b .inverno +
      R.porEstacao b .primavera ≤ R.total b := by
  have hb : df.colunas.contains "bairro" = true := by
    cases hx : df.colunas.contains "bairro"
    · rw [contar_ocorrencias_por_bairro, if_pos (by simpa using hx)] at h
      exact Except.noConfusion h
    · rfl
  rw [contar_ok df hb] at h
  injection h with h2
  subst h2
  simp only [tabelasDe_porEstacao, totalPorBairro]
  rw [← List.countP_eq_length_filter]
  exact countP_estacoes_le df.linhas (colunaDataDe df.colunas) b

/-- Python `dict.get(k, v0)` over an association list (keys unique in the
lists the pipeline builds; lookup takes the first match). -/
def dictGet {α : Type} (d : List (String × α)) (k : String) (v0 : α) : α :=
  match d.find? (fun kv => kv.1 == k) with
  | some kv => kv.2
  | none => v0

/-- A raw GeoJSON feature as consumed by
`extrair_ocorrencias_por_estacao.py`: its `properties` dictionary (values
as `DataValor`, with JSON `null` as `.null` and non-string scalars as
`.outro`), and an `id` standing for the rest of the feature object
(geometry etc.), which the splitter moves around untouched and which
distinguishes records. -/
structure FeatureOc where
  id : Nat
  properties : List (String × DataValor)
deriving DecidableEq, Repr

/-- Lines 155–171: the date column is resolved from the FIRST feature's
properties — the first of `data_inicio`, `data_fim`, `data_particao`
present there; `none` when the collection is empty or none is present. -/
def primeiraColunaData (features : List FeatureOc) : Option String :=
  match features with
  | [] => none
  | f :: _ =>
    (["data_inicio", "data_fim", "data_particao"]).find?
      (fun c => (f.properties.map Prod.fst).contains c)

/-- Line 178: `data_valor is None or (isinstance(data_valor, str) and
data_valor.strip() == '')`.  A missing key (`props.get` returning `None`)
is covered by `.null`. -/
def valorEmBranco (v : DataValor) : Bool :=
  match v with
  | .null => true
  | .str s => pstrip s == ""
  | _ => false

/-- The splitter's observable result: the `defaultdict(list)` of features
per season (missing key reads as `[]`, matching `.get(estacao, [])`), and
the two printed counters. -/
structure ResultadoEstacoes where
  particao : Estacao → List FeatureOc
  semData : Nat
  semEstacao : Nat

/-- Fresh `defaultdict(list)` and zeroed counters. -/
def resultadoVazio : ResultadoEstacoes := ⟨fun _ => [], 0, 0⟩

/-- The body of the feature loop (lines 174–188): blank/missing date
increments `ocorrencias_sem_data`; an unclassifiable date increments
`ocorrencias_sem_estacao`; otherwise the feature is appended to exactly
one season's list. -/
def passoEstacao (col : String) (acc : ResultadoEstacoes) (f : FeatureOc) :
    ResultadoEstacoes :=
  let dv := dictGet f.properties col .null
  if valorEmBranco dv then { acc with semData := acc.semData + 1 }
  else
    match determinar_estacao_hemisferio_sul dv with
    | none => { acc with semEstacao := acc.semEstacao + 1 }
    | some s =>
      { acc with particao := fun s2 =>
          if s2 = s then acc.particao s2 ++ [f] else acc.particao s2 }

/-- `extrair_ocorrencias_por_estacao` (lines 130–199): resolve the date
column from the first feature (returning the empty result when the
collection is empty or no date column is found), then run the feature
loop. -/
def extrair_ocorrencias_por_estacao (features : List FeatureOc) : ResultadoEstacoes :=
  match primeiraColunaData features with
  | none => resultadoVazio
  | some col => features.foldl (passoEstacao col) resultadoVazio

/-- The effective classification of one feature by the splitter: `none`
when the date value is missing/blank or unclassifiable. -/
def classificaCom (col : String) (f : FeatureOc) : Option Estacao :=
  let dv := dictGet f.properties col .null
  if valorEmBranco dv then none else determinar_estacao_hemisferio_sul dv

/-- One splitter step appends `f` to season `s` exactly when `f`
classifies to `s`. -/
theorem passoEstacao_particao (col : String) (acc : ResultadoEstacoes)
    (f : FeatureOc) (s : Estacao) :
    (passoEstacao col acc f).particao s =
      acc.particao s ++ (if classificaCom col f = some s then [f] else []) := by
  rw [passoEstacao, classificaCom]
  by_cases hb : valorEmBranco (dictGet f.properties col .null) = true
  · simp [hb]
  · rcases hs : determinar_estacao_hemisferio_sul (dictGet f.properties col .null) with _ | s0
    · simp [hb, hs]
    · by_cases he : s = s0
      · simp [hb, hs, he]
      · have he2 : ¬ s0 = s := fun hx => he hx.symm
        simp [hb, hs, he, he2]

/-- One splitter step increments `sem_data` exactly on blank dates. -/
theorem passoEstacao_semData (col : String) (acc : ResultadoEstacoes) (f : FeatureOc) :
    (passoEstacao col acc f).semData =
      acc.semData + (if valorEmBranco (dictGet f.properties col .null) = true then 1 else 0) := by
  rw [passoEstacao]
  by_cases hb : valorEmBranco (dictGet f.properties col .null) = true
  · simp [hb]
  · rcases hs : determinar_estacao_hemisferio_sul (dictGet f.properties col .null) with _ | s0 <;>
      simp [hb, hs]

/-- One splitter step increments `sem_estacao` exactly on non-blank,
unclassifiable dates. -/
theorem passoEstacao_semEstacao (col : String) (acc : ResultadoEstacoes) (f : FeatureOc) :
    (passoEstacao col acc f).semEstacao =
      acc.semEstacao + (if valorEmBranco (dictGet f.properties col .null) = false ∧
        determinar_estacao_hemisferio_sul (dictGet f.properties col .null) = none
        then 1 else 0) := by
  rw [passoEstacao]
  by_cases hb : valorEmBranco (dictGet f.properties col .null) = true
  · simp [hb]
  · rcases hs : determinar_estacao_hemisferio_sul (dictGet f.properties col .null) with _ | s0 <;>
      simp [hb, hs]

/-- Running the whole loop: season `s`'s list is the in-order sublist of
features classifying to `s`. -/
theorem foldl_particao (col : String) (l : List FeatureOc) (acc : ResultadoEstacoes)
    (s : Estacao) :
    (l.foldl (passoEstacao col) acc).particao s =
      acc.particao s ++ l.filter (fun f => classificaCom col f == some s) := by
  induction l generalizing acc with
  | nil => simp
  | cons f l ih =>
    rw [List.foldl_cons, ih, passoEstacao_particao, List.filter_cons]
    by_cases hc : classificaCom col f = some s
    · simp [hc]
    · simp [hc]

/-- The non-blank, unclassifiable-date predicate, as a Boolean. -/
def semEstacaoBool (col : String) (f : FeatureOc) : Bool :=
  !valorEmBranco (dictGet f.properties col .null) &&
    (determinar_estacao_hemisferio_sul (dictGet f.properties col .null)).isNone

/-- Running the whole loop: `ocorrencias_sem_data` counts the blank-date
features. -/
theorem foldl_semData (col : String) (l : List FeatureOc) (acc : ResultadoEstacoes) :
    (l.foldl (passoEstacao col) acc).semData =
      acc.semData + l.countP (fun f => valorEmBranco (dictGet f.properties col .null)) := by
  induction l generalizing acc with
  | nil => simp
  | cons f l ih =>
    rw [List.foldl_cons, ih, passoEstacao_semData, List.countP_cons]
    by_cases hb : valorEmBranco (dictGet f.properties col .null) = true <;>
      simp [hb] <;> omega

/-- Running the whole loop: `ocorrencias_sem_estacao` counts the
non-blank, unclassifiable-date features. -/
theorem foldl_semEstacao (col : String) (l : List FeatureOc) (acc : ResultadoEstacoes) :
    (l.foldl (passoEstacao col) acc).semEstacao =
      acc.semEstacao + l.countP (semEstacaoBool col) := by
  induction l generalizing acc with
  | nil => simp
  | cons f l ih =>
    rw [List.foldl_cons, ih, passoEstacao_semEstacao, List.countP_cons]
    by_cases hb : valorEmBranco (dictGet f.properties col .null) = true
    · simp [semEstacaoBool, hb]
    · rcases hs : determinar_estacao_hemisferio_sul (dictGet f.properties col .null) with _ | s0 <;>
        simp [semEstacaoBool, hb, hs] <;> omega

/-- Every feature is counted exactly once: blank, unclassifiable, or
classified. -/
theorem countP_tres_grupos (col : String) (l : List FeatureOc) :
    l.countP (fun f => valorEmBranco (dictGet f.properties col .null)) +
      l.countP (semEstacaoBool col) +
      l.countP (fun f => (classificaCom col f).isSome) = l.length := by
  induction l with
  | nil => simp
  | cons f l ih =>
    simp only [List.countP_cons, List.length_cons]
    by_cases hb : valorEmBranco (dictGet f.properties col .null) = true
    · have h1 : semEstacaoBool col f = false := by simp [semEstacaoBool, hb]
      have h2 : (classificaCom col f).isSome = false := by simp [classificaCom, hb]
      rw [if_pos hb, if_neg (by rw [h1]; simp), if_neg (by rw [h2]; simp)]
      omega
    · have h3 : valorEmBranco (dictGet f.properties col .null) = false := by
        cases hz : valorEmBranco (dictGet f.properties col .null)
        · rfl
        · exact absurd hz hb
      rcases hs : determinar_estacao_hemisferio_sul (dictGet f.properties col .null) with _ | s0
      · have h1 : semEstacaoBool col f = true := by simp [semEstacaoBool, h3, hs]
        have h2 : (classificaCom col f).isSome = false := by simp [classificaCom, h3, hs]
        rw [if_neg hb, if_pos h1, if_neg (by rw [h2]; simp)]
        omega
      · have h1 : semEstacaoBool col f = false := by simp [semEstacaoBool, h3, hs]
        have h2 : (classificaCom col f).isSome = true := by simp [classificaCom, h3, hs]
        rw [if_neg hb, if_neg (by rw [h1]; simp), if_pos h2]
        omega

/-- The four per-season counts add up to the classified count. -/
theorem countP_quatro_estacoes (col : String) (l : List FeatureOc) :
    l.countP (fun f => classificaCom col f == some Estacao.verao) +
      l.countP (fun f => classificaCom col f == some Estacao.outono) +
      l.countP (fun f => classificaCom col f == some Estacao.inverno) +
      l.countP (fun f => classificaCom col f == some Estacao.primavera) =
      l.countP (fun f => (classificaCom col f).isSome) := by
  induction l with
  | nil => simp
  | cons f l ih =>
    simp only [List.countP_cons]
    rcases hc : classificaCom col f with _ | s
    · simp [hc]
      omega
    · cases s <;> simp [hc] <;> omega

end GeojsonCleaning

namespace GeojsonCleaning

/-- C9: when a date column is resolved, each season's output list is
exactly the input features classifying to that season (in input order);
hence the partitions are pairwise disjoint, their union by record identity
is the input minus the blank-date and unclassifiable-date features, their
sizes add up to the number of classified features, and together with the
two printed counters every input feature is accounted for. -/
theorem divisao_por_estacao_particiona (fs : List FeatureOc) (col : String)
    (h : primeiraColunaData fs = some col) :
    (∀ s, (extrair_ocorrencias_por_estacao fs).particao s =
      fs.filter (fun f => classificaCom col f == some s)) ∧
    (∀ s t, s ≠ t → ∀ f, f ∈ (extrair_ocorrencias_por_estacao fs).particao s →
      f ∉ (extrair_ocorrencias_por_estacao fs).particao t) ∧
    (∀ f, (f ∈ (extrair_ocorrencias_por_estacao fs).particao .verao ∨
           f ∈ (extrair_ocorrencias_por_estacao fs).particao .outono ∨
           f ∈ (extrair_ocorrencias_por_estacao fs).particao .inverno ∨
           f ∈ (extrair_ocorrencias_por_estacao fs).particao .primavera) ↔
      (f ∈ fs ∧ (classificaCom col f).isSome = true)) ∧
    (((extrair_ocorrencias_por_estacao fs).particao .verao).length +
      ((extrair_ocorrencias_por_estacao fs).particao .outono).length +
      ((extrair_ocorrencias_por_estacao fs).particao .inverno).length +
      ((extrair_ocorrencias_por_estacao fs).particao .primavera).length =
      fs.countP (fun f => (classificaCom col f).isSome)) ∧
    ((extrair_ocorrencias_por_estacao fs).semData +
      (extrair_ocorrencias_por_estacao fs).semEstacao +
      fs.countP (fun f => (classificaCom col f).isSome) = fs.length) := by
  have hx : extrair_ocorrencias_por_estacao fs = fs.foldl (passoEstacao col) resultadoVazio := by
    rw [extrair_ocorrencias_por_estacao, h]
  have hpart : ∀ s, (extrair_ocorrencias_por_estacao fs).particao s =
      fs.filter (fun f => classificaCom col f == some s) := by
    intro s
    rw [hx, foldl_particao]
    rfl
  refine ⟨hpart, ?_, ?_, ?_, ?_⟩
  · intro s t hst f hfs hft
    rw [hpart s, List.mem_filter] at hfs
    rw [hpart t, List.mem_filter] at hft
    have h1 : classificaCom col f = some s := by simpa using hfs.2
    have h2 : classificaCom col f = some t := by simpa using hft.2
    rw [h1] at h2
    exact hst (Option.some.inj h2)
  · intro f
    constructor
    · intro hf
      rcases hf with hf | hf | hf | hf <;>
        rw [hpart _, List.mem_filter] at hf <;>
        refine ⟨hf.1, ?_⟩ <;>
        · have := hf.2
          simp only [beq_iff_eq] at this
          rw [this]
          rfl
    · rintro ⟨hmem, hsome⟩
      rcases hc : classificaCom col f with _ | s
      · rw [hc] at hsome
        simp at hsome
      · cases s
        · exact Or.inl (by rw [hpart, List.mem_filter]; exact ⟨hmem, by simp [hc]⟩)
        · exact Or.inr (Or.inl (by rw [hpart, List.mem_filter]; exact ⟨hmem, by simp [hc]⟩))
        · exact Or.inr (Or.inr (Or.inl (by rw [hpart, List.mem_filter]; exact ⟨hmem, by simp [hc]⟩)))
        · exact Or.inr (Or.inr (Or.inr (by rw [hpart, List.mem_filter]; exact ⟨hmem, by simp [hc]⟩)))
  · simp only [hpart]
    rw [← List.countP_eq_length_filter, ← List.countP_eq_length_filter,
      ← List.countP_eq_length_filter, ← List.countP_eq_length_filter]
    exact countP_quatro_estacoes col fs
  · rw [hx, foldl_semData, foldl_semEstacao]
    simp only [resultadoVazio, Nat.zero_add]
    exact countP_tres_grupos col fs

/-- A feature collection for the C9 witness: one summer date, one blank,
one garbage date. -/
def fsC9 : List FeatureOc :=
  [⟨1, [("bairro", .str "Centro"), ("data_inicio", .str "2024-01-15")]⟩,
   ⟨2, [("bairro", .str "Norte"), ("data_inicio", .str "")]⟩,
   ⟨3, [("bairro", .str "Sul"), ("data_inicio", .str "not-a-date")]⟩]

/-- Witness for C9 at a concrete feature collection. -/
theorem divisao_por_estacao_particiona_witness :
    (extrair_ocorrencias_por_estacao fsC9).particao Estacao.verao =
      fsC9.filter (fun f => classificaCom "data_inicio" f == some Estacao.verao) ∧
    (extrair_ocorrencias_por_estacao fsC9).semData +
      (extrair_ocorrencias_por_estacao fsC9).semEstacao +
      fsC9.countP (fun f => (classificaCom "data_inicio" f).isSome) = fsC9.length := by
  have h := divisao_por_estacao_particiona fsC9 "data_inicio" (by decide)
  exact ⟨h.1 Estacao.verao, h.2.2.2.2⟩

end GeojsonCleaning

namespace GeojsonCleaning

/-- A small frame exercising C5: two classifiable dates, one blank. -/
def dfC5 : Ocorrencias :=
  ⟨["bairro", "tipo", "data_inicio"],
   [⟨some "Centro", some "Alagamento", .str "2024-01-15", .null, .null⟩,
    ⟨some "Centro", some "Alagamento", .str "", .null, .null⟩]⟩

/-- The three known occurrence type categories that
`adicionar_contagens_ao_shapefile` maps to fixed output columns (lines
390–405: substring matching on `Alagamento`, `Bols`/`Bolsão`,
`Lâmina`/`Lamina`).  The substring classification itself is resolved by an
abstract labelling `Categoria → String` giving the dataset's type string
for each category. -/
inductive Categoria where
  | alagamento
  | bolsao
  | lamina
deriving DecidableEq, Repr

/-- An input neighborhood polygon row: its resolved name-column value, the
optional precomputed `st_areasha` attribute (square meters), and the
geometric area in square meters that the GIS library computes after
reprojection (an external computation, taken as a given attribute). -/
structure Bairro where
  nome : String
  st_areasha : Option ℚ
  areaGeometrica : ℚ
deriving DecidableEq, Repr

/-- Lines 421–441: `area_km2` comes from `st_areasha / 1_000_000` when the
column exists, otherwise from the reprojected geometric area divided by
1,000,000. -/
def areaKm2De (b : Bairro) : ℚ :=
  match b.st_areasha with
  | some a => a / 1000000
  | none => b.areaGeometrica / 1000000

/-- Lines 447–450 (and every later density block): `count / area_km2 if
area_km2 > 0 else 0`. -/
def densidade (c : Nat) (area : ℚ) : ℚ :=
  if area > 0 then (c : ℚ) / area else 0

/-- Python dict insertion: later insertions overwrite earlier ones (the
new pair shadows any previous pair with the same key). -/
def dictInsere {α : Type} (d : List (String × α)) (k : String) (v : α) :
    List (String × α) :=
  (k, v) :: d.filter (fun kv => ! (kv.1 == k))

/-- A dict comprehension of the form
`\x7bstr(k).strip(): f(v) for k, v in d.items()\x7d` (lines 352–375): keys
stripped, values transformed, later stripped keys overwriting earlier
ones. -/
def normalizaChaves {α β : Type} (f : α → β) (d : List (String × α)) :
    List (String × β) :=
  d.foldl (fun acc kv => dictInsere acc (pstrip kv.1) (f kv.2)) []

/-- An enriched polygon row: every count and density column added by
`adicionar_contagens_ao_shapefile`.  The per-season and per-type-per-season
column families (`cont_<estacao>`, `dens_<estacao>`, `cont_<tipo>_<estacao>`,
`dens_<tipo>_<estacao>`) are modelled as functions from the season (and
category). -/
structure BairroEnriquecido where
  nome : String
  area_km2 : ℚ
  contagem_total : Nat
  contagem_alagamento : Nat
  contagem_bolsao : Nat
  contagem_lamina : Nat
  dens_km2 : ℚ
  dens_alag : ℚ
  dens_bolsao : ℚ
  dens_lamina : ℚ
  cont_estacao : Estacao → Nat
  dens_estacao : Estacao → ℚ
  cont_tipo_estacao : Categoria → Estacao → Nat
  dens_tipo_estacao : Categoria → Estacao → ℚ

/-- The per-polygon work of `adicionar_contagens_ao_shapefile` (lines
377–513): the join key is the stripped polygon name; every count column is
a `.get(..., 0)`-style lookup in the corresponding normalized table
(`.map(...).fillna(0)` for the total, `.get(b, \x7b\x7d).get(..., 0)` chains for
the rest); every density column applies the zero-area guard. -/
def enriquecerBairro (rotulo : Categoria → String)
    (totalN : List (String × Nat))
    (tipoN : List (String × List (String × Nat)))
    (estN : List (String × List (String × Nat)))
    (teN : List (String × List (String × List (String × Nat))))
    (b : Bairro) : BairroEnriquecido :=
  let chave := pstrip b.nome
  let area := areaKm2De b
  let cTotal := dictGet totalN chave 0
  let tiposDe := dictGet tipoN chave []
  let cAlag := dictGet tiposDe (rotulo .alagamento) 0
  let cBolsao := dictGet tiposDe (rotulo .bolsao) 0
  let cLamina := dictGet tiposDe (rotulo .lamina) 0
  let estacoesDe := dictGet estN chave []
  let teDe := dictGet teN chave []
  { nome := b.nome
    area_km2 := area
    contagem_total := cTotal
    contagem_alagamento := cAlag
    contagem_bolsao := cBolsao
    contagem_lamina := cLamina
    dens_km2 := densidade cTotal area
    dens_alag := densidade cAlag area
    dens_bolsao := densidade cBolsao area
    dens_lamina := densidade cLamina area
    cont_estacao := fun s => dictGet estacoesDe s.nome 0
    dens_estacao := fun s => densidade (dictGet estacoesDe s.nome 0) area
    cont_tipo_estacao := fun c s =>
      dictGet (dictGet teDe (rotulo c) []) s.nome 0
    dens_tipo_estacao := fun c s =>
      densidade (dictGet (dictGet teDe (rotulo c) []) s.nome 0) area }

/-- `adicionar_contagens_ao_shapefile` (lines 311–524): normalize the four
count tables' keys (lines 350–375: neighborhood keys stripped everywhere;
type and season keys stripped in the nested season tables), then enrich
every polygon row in place — no row is added or removed. -/
def adicionar_contagens_ao_shapefile (rotulo : Categoria → String)
    (bairros : List Bairro)
    (cTotal : List (String × Nat))
    (cTipo : List (String × List (String × Nat)))
    (cEstacao : List (String × List (String × Nat)))
    (cTipoEstacao : List (String × List (String × List (String × Nat)))) :
    List BairroEnriquecido :=
  let totalN := normalizaChaves id cTotal
  let tipoN := normalizaChaves id cTipo
  let estN := normalizaChaves (normalizaChaves id) cEstacao
  let teN := normalizaChaves (normalizaChaves (normalizaChaves id)) cTipoEstacao
  bairros.map (enriquecerBairro rotulo totalN tipoN estN teN)

/-- Every key of a normalized table is the strip of some input key. -/
theorem chaves_normaliza {α β : Type} (f : α → β) (d : List (String × α))
    (acc : List (String × β)) :
    ∀ kv2 ∈ d.foldl (fun a kv => dictInsere a (pstrip kv.1) (f kv.2)) acc,
      kv2.1 ∈ acc.map Prod.fst ∨ ∃ kv ∈ d, kv2.1 = pstrip kv.1 := by
  induction d generalizing acc with
  | nil =>
    intro kv2 h
    exact Or.inl (List.mem_map_of_mem _ h)
  | cons kv d ih =>
    intro kv2 h
    rcases ih (dictInsere acc (pstrip kv.1) (f kv.2)) kv2 h with hin | ⟨kv3, h3, he⟩
    · rcases List.mem_map.mp hin with ⟨x, hx, hfst⟩
      rcases List.mem_cons.mp hx with heq | hx2
      · refine Or.inr ⟨kv, List.mem_cons_self kv d, ?_⟩
        rw [← hfst, heq]
      · refine Or.inl ?_
        rw [← hfst]
        exact List.mem_map_of_mem Prod.fst (List.mem_of_mem_filter hx2)
    · exact Or.inr ⟨kv3, List.mem_cons_of_mem kv h3, he⟩

/-- Looking a key up in a normalized table whose inputs all strip to other
keys yields the default (the unmatched-polygon case: `.fillna(0)` /
`.get(..., 0)`). -/
theorem dictGet_normaliza_ausente {α β : Type} (f : α → β) (d : List (String × α))
    (k : String) (v0 : β) (h : ∀ kv ∈ d, ¬ pstrip kv.1 = k) :
    dictGet (normalizaChaves f d) k v0 = v0 := by
  unfold dictGet
  have hnone : (normalizaChaves f d).find? (fun kv => kv.1 == k) = none := by
    rw [List.find?_eq_none]
    intro kv2 hkv2
    rcases chaves_normaliza f d [] kv2 hkv2 with hin | ⟨kv, hkv, he⟩
    · simp at hin
    · simp only [beq_iff_eq]
      rw [he]
      exact h kv hkv
  rw [hnone]

/-- C6: the enricher maps each input polygon to exactly one output row, in
order — no polygon is dropped or duplicated (the output has the same
length and the same names positionally) — and a polygon whose stripped
name matches no (stripped) count-table key gets total count `0` instead of
being removed. -/
theorem enriquecedor_preserva_poligonos (rotulo : Categoria → String)
    (bairros : List Bairro) (cTotal : List (String × Nat))
    (cTipo : List (String × List (String × Nat)))
    (cEstacao : List (String × List (String × Nat)))
    (cTipoEstacao : List (String × List (String × List (String × Nat)))) :
    (adicionar_contagens_ao_shapefile rotulo bairros cTotal cTipo cEstacao cTipoEstacao).length =
      bairros.length ∧
    (∀ i : Nat,
      ((adicionar_contagens_ao_shapefile rotulo bairros cTotal cTipo cEstacao
        cTipoEstacao)[i]?).map (fun e => e.nome) = (bairros[i]?).map (fun b => b.nome)) ∧
    (∀ (i : Nat) (b : Bairro) (e : BairroEnriquecido), bairros[i]? = some b →
      (adicionar_contagens_ao_shapefile rotulo bairros cTotal cTipo cEstacao
        cTipoEstacao)[i]? = some e →
      (∀ kv ∈ cTotal, ¬ pstrip kv.1 = pstrip b.nome) →
      e.contagem_total = 0) := by
  refine ⟨List.length_map bairros _, ?_, ?_⟩
  · intro i
    show ((bairros.map (enriquecerBairro rotulo _ _ _ _))[i]?).map _ = _
    rw [List.getElem?_map]
    rcases bairros[i]? with _ | b
    · rfl
    · rfl
  · intro i b e hb he hnone
    have he2 : (bairros.map (enriquecerBairro rotulo (normalizaChaves id cTotal)
        (normalizaChaves id cTipo) (normalizaChaves (normalizaChaves id) cEstacao)
        (normalizaChaves (normalizaChaves (normalizaChaves id)) cTipoEstacao)))[i]? = some e := he
    rw [List.getElem?_map, hb] at he2
    have he3 : e = enriquecerBairro rotulo (normalizaChaves id cTotal)
        (normalizaChaves id cTipo) (normalizaChaves (normalizaChaves id) cEstacao)
        (normalizaChaves (normalizaChaves (normalizaChaves id)) cTipoEstacao) b :=
      (Option.some.inj he2).symm
    rw [he3]
    show dictGet (normalizaChaves id cTotal) (pstrip b.nome) 0 = 0
    exact dictGet_normaliza_ausente id cTotal (pstrip b.nome) 0 hnone

/-- C7: for every output polygon, every density column obeys the zero-area
guard: when `area_km2` is not positive every density (total, the three
type categories, the four seasons, and every type-by-season combination)
is `0`; when `area_km2 > 0` every density equals its count column divided
by `area_km2`.  Division by zero never occurs — the `area_km2 > 0` branch
is the only one that divides. -/
theorem densidades_protegidas (rotulo : Categoria → String)
    (bairros : List Bairro) (cTotal : List (String × Nat))
    (cTipo : List (String × List (String × Nat)))
    (cEstacao : List (String × List (String × Nat)))
    (cTipoEstacao : List (String × List (String × List (String × Nat))))
    (e : BairroEnriquecido)
    (he : e ∈ adicionar_contagens_ao_shapefile rotulo bairros cTotal cTipo cEstacao
      cTipoEstacao) :
    (e.area_km2 ≤ 0 →
      e.dens_km2 = 0 ∧ e.dens_alag = 0 ∧ e.dens_bolsao = 0 ∧ e.dens_lamina = 0 ∧
      (∀ s, e.dens_estacao s = 0) ∧ (∀ c s, e.dens_tipo_estacao c s = 0)) ∧
    (0 < e.area_km2 →
      e.dens_km2 = (e.contagem_total : ℚ) / e.area_km2 ∧
      e.dens_alag = (e.contagem_alagamento : ℚ) / e.area_km2 ∧
      e.dens_bolsao = (e.contagem_bolsao : ℚ) / e.area_km2 ∧
      e.dens_lamina = (e.contagem_lamina : ℚ) / e.area_km2 ∧
      (∀ s, e.dens_estacao s = (e.cont_estacao s : ℚ) / e.area_km2) ∧
      (∀ c s, e.dens_tipo_estacao c s = (e.cont_tipo_estacao c s : ℚ) / e.area_km2)) := by
  have he2 : e ∈ bairros.map (enriquecerBairro rotulo (normalizaChaves id cTotal)
      (normalizaChaves id cTipo) (normalizaChaves (normalizaChaves id) cEstacao)
      (normalizaChaves (normalizaChaves (normalizaChaves id)) cTipoEstacao)) := he
  rcases List.mem_map.mp he2 with ⟨b, -, hb⟩
  subst hb
  constructor
  · intro harea
    have hneg : ¬ areaKm2De b > 0 := by
      simpa [enriquecerBairro] using not_lt.mpr harea
    refine ⟨?_, ?_, ?_, ?_, fun s => ?_, fun c s => ?_⟩ <;>
      simp only [enriquecerBairro, densidade] <;>
      rw [if_neg hneg]
  · intro harea
    have hpos : areaKm2De b > 0 := by
      simpa [enriquecerBairro] using harea
    refine ⟨?_, ?_, ?_, ?_, fun s => ?_, fun c s => ?_⟩ <;>
      simp only [enriquecerBairro, densidade] <;>
      rw [if_pos hpos]

/-- The dataset's actual type labels for the three categories. -/
def rotuloPadrao : Categoria → String
  | .alagamento => "Alagamento"
  | .bolsao => "Bolsão"
  | .lamina => "Lâmina"

/-- A polygon with `st_areasha = 0`, hence `area_km2 = 0`. -/
def bairroAreaZero : Bairro := ⟨"Centro", some 0, 0⟩

/-- A polygon whose name matches no key of the witness count table. -/
def bairroSemContagem : Bairro := ⟨"Sul", some 2000000, 0⟩

/-- The witness count table: only `Centro ` (with trailing space). -/
def tabelaTotalW : List (String × Nat) := [("Centro ", 2)]

/-- The enricher's output on the two witness polygons. -/
def saidaEnriquecida : List BairroEnriquecido :=
  adicionar_contagens_ao_shapefile rotuloPadrao [bairroAreaZero, bairroSemContagem]
    tabelaTotalW [] [] []

/-- A throwaway inhabitant used only as the `headD` default. -/
def enriquecidoPadrao : BairroEnriquecido :=
  ⟨"", 0, 0, 0, 0, 0, 0, 0, 0, 0, fun _ => 0, fun _ => 0, fun _ _ => 0, fun _ _ => 0⟩

/-- The first output row (zero-area polygon), spelled as the enricher
computes it. -/
def enr0 : BairroEnriquecido :=
  enriquecerBairro rotuloPadrao (normalizaChaves id tabelaTotalW)
    (normalizaChaves id []) (normalizaChaves (normalizaChaves id) [])
    (normalizaChaves (normalizaChaves (normalizaChaves id)) []) bairroAreaZero

/-- The second output row (unmatched polygon `Sul`). -/
def enr1 : BairroEnriquecido :=
  enriquecerBairro rotuloPadrao (normalizaChaves id tabelaTotalW)
    (normalizaChaves id []) (normalizaChaves (normalizaChaves id) [])
    (normalizaChaves (normalizaChaves (normalizaChaves id)) []) bairroSemContagem

/-- Witness for C6: the enricher keeps both polygons, in order, and the
unmatched polygon `Sul` gets total count `0`. -/
theorem enriquecedor_preserva_poligonos_witness :
    saidaEnriquecida.length = 2 ∧
    (saidaEnriquecida[1]?).map (fun e => e.nome) = some "Sul" ∧
    enr1.contagem_total = 0 := by
  have h := enriquecedor_preserva_poligonos rotuloPadrao
    [bairroAreaZero, bairroSemContagem] tabelaTotalW [] [] []
  refine ⟨h.1, ?_, ?_⟩
  · show Option.map (fun e => e.nome)
      (adicionar_contagens_ao_shapefile rotuloPadrao [bairroAreaZero, bairroSemContagem]
        tabelaTotalW [] [] [])[1]? = some "Sul"
    rw [h.2.1 1]
    rfl
  · exact h.2.2 1 bairroSemContagem enr1 rfl rfl (by decide)

/-- Witness for C7 at the zero-area polygon: all its densities are `0`. -/
theorem densidades_protegidas_witness :
    enr0.area_km2 ≤ 0 ∧
    enr0.dens_km2 = 0 ∧
    enr0.dens_alag = 0 ∧
    enr0.dens_estacao Estacao.verao = 0 ∧
    enr0.dens_tipo_estacao Categoria.bolsao Estacao.inverno = 0 := by
  have hmem : enr0 ∈
      adicionar_contagens_ao_shapefile rotuloPadrao [bairroAreaZero, bairroSemContagem]
        tabelaTotalW [] [] [] :=
    List.Mem.head _
  have h := densidades_protegidas rotuloPadrao [bairroAreaZero, bairroSemContagem]
    tabelaTotalW [] [] [] enr0 hmem
  have harea : enr0.area_km2 ≤ 0 := by
    norm_num [enr0, enriquecerBairro, areaKm2De, bairroAreaZero]
  have h0 := h.1 harea
  exact ⟨harea, h0.1, h0.2.1, h0.2.2.2.2.1 Estacao.verao,
    h0.2.2.2.2.2 Categoria.bolsao Estacao.inverno⟩

/-- A JSON coordinate entry as seen by `ler_ocorrencias`: a number
(`float()` succeeds), a string (`float(s)` succeeds iff it is a decimal
numeral), JSON `null` (`float(None)` raises `TypeError`), or a nested
array (also `TypeError`). -/
inductive Coordenada where
  | num (q : ℚ)
  | str (s : String)
  | nula
  | lista
deriving DecidableEq, Repr

/-- The geometry slot of a raw feature: JSON `null`; a geometry object
with no `coordinates` member; or one whose `coordinates` is an array. -/
inductive Geometria where
  | nula
  | semCoordenadas
  | comCoordenadas (coords : List Coordenada)
deriving DecidableEq, Repr

/-- A raw feature as read by `ler_ocorrencias`; `id` stands for the rest
of the feature object, which the reader passes through untouched. -/
structure FeatureBruta where
  id : Nat
  geometry : Geometria
deriving DecidableEq, Repr

/-- An unsigned decimal numeral: at least one digit, only digits and at
most one decimal point. -/
def ehNumeral (cs : List Char) : Bool :=
  cs.any Char.isDigit && cs.all (fun c => c.isDigit || c = '.') && cs.count '.' ≤ 1

/-- Modelled from the spec / external library: Python `float(x)` succeeds
on numbers and on optionally signed decimal-numeral strings (whitespace
stripped); it raises on the empty string, non-numeric strings, `None` and
lists.  (Exotic accepted spellings — exponents, `inf`, `nan` — are outside
the modelled input space.) -/
def floatConvertivel : Coordenada → Bool
  | .num _ => true
  | .str s =>
    match (pstrip s).toList with
    | c :: resto =>
      if c = '+' ∨ c = '-' then ehNumeral resto else ehNumeral (c :: resto)
    | [] => false
  | .nula => false
  | .lista => false

example : floatConvertivel (.str "-43.25") = true := by decide
example : floatConvertivel (.str "") = false := by decide
example : floatConvertivel (.str "abc") = false := by decide

/-- The per-feature validity check of `ler_ocorrencias` (lines 109–136):
null geometry is rejected; a geometry carrying a `coordinates` array with
at least two entries is rejected when the first two entries contain an
empty string (`coords == ["", ""]` or any of `coords[:2]` equal to `""`)
or when `float()` fails on either of the first two entries; everything
else — including a geometry with no `coordinates` member, and arrays with
fewer than two entries — falls through to the accept path. -/
def featureValida (f : FeatureBruta) : Bool :=
  match f.geometry with
  | .nula => false
  | .semCoordenadas => true
  | .comCoordenadas coords =>
    match coords with
    | c0 :: c1 :: resto =>
      if (c0 :: c1 :: resto) == [Coordenada.str "", Coordenada.str ""] ||
          c0 == Coordenada.str "" || c1 == Coordenada.str "" then false
      else floatConvertivel c0 && floatConvertivel c1
    | _ => true

/-- `ler_ocorrencias` (lines 87–147), its validation part: the valid
features in input order, and the printed count of rejected features. -/
def ler_ocorrencias (features : List FeatureBruta) : List FeatureBruta × Nat :=
  (features.filter featureValida, features.countP (fun f => ! featureValida f))

/-- The acceptance condition `featureValida` implements, restated from the
observed behavior for the amended C8: geometry must be non-null, and when
it carries a coordinates array with at least two entries the first two
must be non-empty-string and float-convertible; a geometry with no
coordinates member, or an array with fewer than two entries, is accepted. -/
def aceitaEspecificada (f : FeatureBruta) : Bool :=
  match f.geometry with
  | .nula => false
  | .semCoordenadas => true
  | .comCoordenadas (c0 :: c1 :: _) =>
    !(c0 == Coordenada.str "") && !(c1 == Coordenada.str "") &&
      floatConvertivel c0 && floatConvertivel c1
  | .comCoordenadas _ => true

/-- The reader's check agrees pointwise with the amended description. -/
theorem featureValida_eq_aceita (f : FeatureBruta) :
    featureValida f = aceitaEspecificada f := by
  rcases f with ⟨i, g⟩
  rcases g with _ | _ | coords
  · rfl
  · rfl
  · rcases coords with _ | ⟨c0, _ | ⟨c1, resto⟩⟩
    · rfl
    · rfl
    · by_cases h0 : c0 = Coordenada.str ""
      · simp [featureValida, aceitaEspecificada, h0]
      · by_cases h1 : c1 = Coordenada.str ""
        · simp [featureValida, aceitaEspecificada, h0, h1]
        · have e0 : (c0 == Coordenada.str "") = false := by simpa using h0
          have e1 : (c1 == Coordenada.str "") = false := by simpa using h1
          simp [featureValida, aceitaEspecificada, h0, h1, e0, e1]

/-- Counting accepted plus rejected features recovers the input size. -/
theorem filter_mais_rejeitadas (l : List FeatureBruta) :
    (l.filter featureValida).length + l.countP (fun f => ! featureValida f) = l.length := by
  induction l with
  | nil => rfl
  | cons f l ih =>
    by_cases h : featureValida f = true <;>
      simp only [List.filter_cons, List.countP_cons, h] <;> simp [h] <;> omega

/-- C8 (amended): the reader keeps exactly the features satisfying the
amended acceptance predicate — null geometry, empty-string first-two
coordinates, and non-float-convertible first-two coordinates are rejected,
while a missing coordinates member or a short coordinates array is
accepted — and the rejected features are counted (reported), not thrown:
kept plus rejected equals the input size. -/
theorem leitor_filtra_caracterizacao (fs : List FeatureBruta) :
    (ler_ocorrencias fs).1 = fs.filter aceitaEspecificada ∧
    (∀ f, f ∈ (ler_ocorrencias fs).1 ↔ (f ∈ fs ∧ aceitaEspecificada f = true)) ∧
    (ler_ocorrencias fs).1.length + (ler_ocorrencias fs).2 = fs.length := by
  have hfun : featureValida = aceitaEspecificada := funext featureValida_eq_aceita
  refine ⟨?_, ?_, ?_⟩
  · show fs.filter featureValida = fs.filter aceitaEspecificada
    rw [hfun]
  · intro f
    show f ∈ fs.filter featureValida ↔ _
    rw [hfun, List.mem_filter]
  · exact filter_mais_rejeitadas fs

/-- A feature whose geometry object has no `coordinates` member. -/
def ftSemCoords : FeatureBruta := ⟨7, .semCoordenadas⟩

/-- A feature whose coordinates array is present but has no entries. -/
def ftCoordsVazias : FeatureBruta := ⟨8, .comCoordenadas []⟩

/-- C8 counterexample: the claim says a feature with a missing coordinate
array is rejected, but the reader accepts it (the `coordinates` checks are
guarded by `'coordinates' in geometry` and `len(coords) >= 2`), and
likewise accepts an empty coordinates array; the rejected count stays 0. -/
theorem leitor_contraexemplo :
    (ler_ocorrencias [ftSemCoords, ftCoordsVazias]).1 = [ftSemCoords, ftCoordsVazias] ∧
    ftSemCoords.geometry = Geometria.semCoordenadas ∧
    ftCoordsVazias.geometry = Geometria.comCoordenadas [] ∧
    (ler_ocorrencias [ftSemCoords, ftCoordsVazias]).2 = 0 := by decide

/-- A scalar JSON value in `fix_all_geojson.py`'s input. -/
inductive JPrim where
  | nulo
  | str (s : String)
  | num (q : ℚ)
  | booleano (b : Bool)
deriving DecidableEq, Repr

/-- A geometry object as the fixer sees it: an optional `coordinates`
array plus its remaining members (e.g. `type`), which the fixer never
touches.  (A Python-falsy geometry — `None` — is the `none` case of the
feature's field below; an empty dict `\x7b\x7d`, also falsy in Python, has no
`coordinates` either way, so the embedding's behavior coincides.) -/
structure Geometria10 where
  coordinates : Option (List JPrim)
  resto : List (String × JPrim)
deriving DecidableEq, Repr

/-- The properties dict: `latitude` and `longitude` (absent = `none`, JSON
null = `some .nulo`) and every other property. -/
structure Props10 where
  latitude : Option JPrim
  longitude : Option JPrim
  resto : List (String × JPrim)
deriving DecidableEq, Repr

/-- One feature of the fixer's input; `resto` carries the feature's other
members (e.g. `"type": "Feature"`). -/
structure Feature10 where
  geometry : Option Geometria10
  properties : Option Props10
  resto : List (String × JPrim)
deriving DecidableEq, Repr

/-- Line 71–73's condition: the feature has a geometry whose
`coordinates` equal `["", ""]`. -/
def coordsVazias (f : Feature10) : Bool :=
  match f.geometry with
  | some g => g.coordinates == some [JPrim.str "", JPrim.str ""]
  | none => false

/-- Line 81's condition: `props.get('latitude') == ""`. -/
def latVazia (f : Feature10) : Bool :=
  match f.properties with
  | some p => p.latitude == some (JPrim.str "")
  | none => false

/-- Line 85's condition: `props.get('longitude') == ""`. -/
def lonVazia (f : Feature10) : Bool :=
  match f.properties with
  | some p => p.longitude == some (JPrim.str "")
  | none => false

/-- Lines 67–91 of `fix_all_geojson.py`, the per-feature correction: set
`geometry` to null when its coordinates equal `["", ""]`; set an
empty-string `latitude` or `longitude` property to null; change nothing
else. -/
def corrigirFeature (f : Feature10) : Feature10 :=
  let f1 :=
    match f.geometry with
    | some g =>
      if g.coordinates = some [JPrim.str "", JPrim.str ""] then
        { f with geometry := none }
      else f
    | none => f
  match f1.properties with
  | some p =>
    let p1 :=
      if p.latitude = some (JPrim.str "") then
        { p with latitude := some JPrim.nulo }
      else p
    let p2 :=
      if p1.longitude = some (JPrim.str "") then
        { p1 with longitude := some JPrim.nulo }
      else p1
    { f1 with properties := some p2 }
  | none => f1

/-- `corrigir_geojson` (lines 26–113), its transformation part: every
feature is corrected in place and written out; the collection's size and
order never change. -/
def corrigir_geojson (features : List Feature10) : List Feature10 :=
  features.map corrigirFeature

/-- C10: the fixer preserves the number (and order) of features, nulls the
geometry exactly for features whose coordinates equal `["", ""]`, nulls
the `latitude`/`longitude` property exactly when it equals `""`, and
changes nothing else: the geometry is untouched when the coordinates
condition fails, the other property entries and the feature's other
members are copied verbatim, and a feature matching none of the three
conditions is written out unchanged. -/
theorem fixer_preserva_e_corrige (fs : List Feature10) (f : Feature10) :
    (corrigir_geojson fs).length = fs.length ∧
    ((corrigirFeature f).geometry = none ↔ (f.geometry = none ∨ coordsVazias f = true)) ∧
    (coordsVazias f = false → (corrigirFeature f).geometry = f.geometry) ∧
    ((corrigirFeature f).resto = f.resto) ∧
    (f.properties = none → (corrigirFeature f).properties = none) ∧
    (∀ p, f.properties = some p → (corrigirFeature f).properties = some
      ⟨(if p.latitude = some (JPrim.str "") then some JPrim.nulo else p.latitude),
       (if p.longitude = some (JPrim.str "") then some JPrim.nulo else p.longitude),
       p.resto⟩) ∧
    (coordsVazias f = false → latVazia f = false → lonVazia f = false →
      corrigirFeature f = f) := by
  rcases f with ⟨g, pr, resto⟩
  refine ⟨List.length_map fs _, ?_, ?_, ?_, ?_, ?_, ?_⟩
  · rcases g with _ | g0
    · rcases pr with _ | p0 <;> simp [corrigirFeature, coordsVazias]
    · by_cases hc : g0.coordinates = some [JPrim.str "", JPrim.str ""]
      · rcases pr with _ | p0 <;> simp [corrigirFeature, coordsVazias, hc]
      · rcases pr with _ | p0 <;> simp [corrigirFeature, coordsVazias, hc]
  · intro hcv
    rcases g with _ | g0
    · rcases pr with _ | p0 <;> simp [corrigirFeature]
    · have hc : ¬ g0.coordinates = some [JPrim.str "", JPrim.str ""] := by
        simpa [coordsVazias] using hcv
      rcases pr with _ | p0 <;> simp [corrigirFeature, hc]
  · rcases g with _ | g0
    · rcases pr with _ | p0 <;> simp [corrigirFeature]
    · by_cases hc : g0.coordinates = some [JPrim.str "", JPrim.str ""] <;>
        rcases pr with _ | p0 <;> simp [corrigirFeature, hc]
  · intro hpr
    subst hpr
    rcases g with _ | g0
    · simp [corrigirFeature]
    · by_cases hc : g0.coordinates = some [JPrim.str "", JPrim.str ""] <;>
        simp [corrigirFeature, hc]
  · intro p hpr
    subst hpr
    rcases p with ⟨la, lo, pres⟩
    rcases g with _ | g0
    · by_cases h1 : la = some (JPrim.str "") <;>
        by_cases h2 : lo = some (JPrim.str "") <;>
        simp [corrigirFeature, h1, h2]
    · by_cases hc : g0.coordinates = some [JPrim.str "", JPrim.str ""] <;>
        by_cases h1 : la = some (JPrim.str "") <;>
        by_cases h2 : lo = some (JPrim.str "") <;>
        simp [corrigirFeature, hc, h1, h2]
  · intro hcv hlat hlon
    rcases g with _ | g0
    · rcases pr with _ | p0
      · rfl
      · have h1 : ¬ p0.latitude = some (JPrim.str "") := by
          simpa [latVazia] using hlat
        have h2 : ¬ p0.longitude = some (JPrim.str "") := by
          simpa [lonVazia] using hlon
        simp [corrigirFeature, h1, h2]
    · have hc : ¬ g0.coordinates = some [JPrim.str "", JPrim.str ""] := by
        simpa [coordsVazias] using hcv
      rcases pr with _ | p0
      · simp [corrigirFeature, hc]
      · have h1 : ¬ p0.latitude = some (JPrim.str "") := by
          simpa [latVazia] using hlat
        have h2 : ¬ p0.longitude = some (JPrim.str "") := by
          simpa [lonVazia] using hlon
        simp [corrigirFeature, hc, h1, h2]

/-- A feature with empty-pair coordinates, empty-string latitude, numeric
longitude. -/
def featureFixe : Feature10 :=
  ⟨some ⟨some [JPrim.str "", JPrim.str ""], [("type", JPrim.str "Point")]⟩,
   some ⟨some (JPrim.str ""), some (JPrim.num 5), [("bairro", JPrim.str "Centro")]⟩,
   [("type", JPrim.str "Feature")]⟩

/-- A feature that needs no correction. -/
def featureIntacta : Feature10 :=
  ⟨some ⟨some [JPrim.num 1, JPrim.num 2], []⟩,
   some ⟨some (JPrim.num 1), some (JPrim.num 2), []⟩, []⟩

/-- Witness for C10 at two concrete features: the broken one gets its
geometry nulled, its latitude nulled, its longitude and other members
kept; the intact one passes through unchanged; the size is preserved. -/
theorem fixer_preserva_e_corrige_witness :
    (corrigir_geojson [featureFixe, featureIntacta]).length = 2 ∧
    (corrigirFeature featureFixe).geometry = none ∧
    (corrigirFeature featureFixe).properties = some
      ⟨some JPrim.nulo, some (JPrim.num 5), [("bairro", JPrim.str "Centro")]⟩ ∧
    (corrigirFeature featureFixe).resto = featureFixe.resto ∧
    corrigirFeature featureIntacta = featureIntacta := by
  have h1 := fixer_preserva_e_corrige [featureFixe, featureIntacta] featureFixe
  have h2 := fixer_preserva_e_corrige [featureFixe, featureIntacta] featureIntacta
  refine ⟨h1.1, ?_, ?_, h1.2.2.2.1, ?_⟩
  · exact h1.2.1.mpr (Or.inr (by decide))
  · have hp := h1.2.2.2.2.2.1
      ⟨some (JPrim.str ""), some (JPrim.num 5), [("bairro", JPrim.str "Centro")]⟩ rfl
    rw [hp]
    decide
  · exact h2.2.2.2.2.2.2 (by decide) (by decide) (by decide)

/-- Record 1 of the end-to-end scenario: `Centro`, `Alagamento`,
`2024-01-15`. -/
def linhaE2E1 : Linha := ⟨some "Centro", some "Alagamento", .str "2024-01-15", .null, .null⟩

/-- Record 2 of the end-to-end scenario: `Centro ` (trailing space),
`Alagamento`, `2024-07-10`. -/
def linhaE2E2 : Linha := ⟨some "Centro ", some "Alagamento", .str "2024-07-10", .null, .null⟩

/-- Record 3 of the end-to-end scenario: `Norte`, `Bolsão`, blank date. -/
def linhaE2E3 : Linha := ⟨some "Norte", some "Bolsão", .str "", .null, .null⟩

/-- The end-to-end scenario's occurrence frame. -/
def dfE2E : Ocorrencias := ⟨["bairro", "tipo", "data_inicio"], [linhaE2E1, linhaE2E2, linhaE2E3]⟩

/-- The same three records as raw features for the splitter. -/
def ftE2E1 : FeatureOc :=
  ⟨1, [("bairro", .str "Centro"), ("tipo", .str "Alagamento"),
       ("data_inicio", .str "2024-01-15")]⟩

/-- Feature form of record 2. -/
def ftE2E2 : FeatureOc :=
  ⟨2, [("bairro", .str "Centro "), ("tipo", .str "Alagamento"),
       ("data_inicio", .str "2024-07-10")]⟩

/-- Feature form of record 3. -/
def ftE2E3 : FeatureOc :=
  ⟨3, [("bairro", .str "Norte"), ("tipo", .str "Bolsão"), ("data_inicio", .str "")]⟩

/-- The end-to-end scenario's feature collection. -/
def fsE2E : List FeatureOc := [ftE2E1, ftE2E2, ftE2E3]

/-- C1 counterexample: on the three-record scenario the aggregator groups
by the RAW neighborhood key (no trimming happens before `groupby`), so
`total_by_neighborhood` maps `"Centro"` to 1 — not 2 as claimed — with the
second record counted under the distinct key `"Centro "`; likewise
`by_season["Centro"]` has no winter entry. -/
theorem cenario_e2e_contraexemplo :
    contagemOk dfE2E = true ∧
    (contagensDe dfE2E).total "Centro" = 1 ∧
    ¬ (contagensDe dfE2E).total "Centro" = 2 ∧
    (contagensDe dfE2E).porEstacao "Centro" Estacao.inverno = 0 ∧
    (contagensDe dfE2E).total "Centro " = 1 := by decide

/-- C1 (amended): on the three-record scenario the aggregator returns
`total_by_neighborhood = \x7b"Centro": 1, "Centro ": 1, "Norte": 1\x7d` (raw
keys, un-trimmed), `by_season["Centro"] = \x7bsummer: 1\x7d`,
`by_season["Centro "] = \x7bwinter: 1\x7d`, Norte's season bucket empty;
the splitter puts record 1 in the summer partition, record 2 in the winter
partition, and record 3 (blank date) in no partition, counting it as
`sem_data`. -/
theorem cenario_e2e_corrigido :
    contagemOk dfE2E = true ∧
    (contagensDe dfE2E).total "Centro" = 1 ∧
    (contagensDe dfE2E).total "Centro " = 1 ∧
    (contagensDe dfE2E).total "Norte" = 1 ∧
    (contagensDe dfE2E).porEstacao "Centro" Estacao.verao = 1 ∧
    (contagensDe dfE2E).porEstacao "Centro" Estacao.outono = 0 ∧
    (contagensDe dfE2E).porEstacao "Centro" Estacao.inverno = 0 ∧
    (contagensDe dfE2E).porEstacao "Centro" Estacao.primavera = 0 ∧
    (contagensDe dfE2E).porEstacao "Centro " Estacao.inverno = 1 ∧
    (contagensDe dfE2E).porEstacao "Centro " Estacao.verao = 0 ∧
    (contagensDe dfE2E).porEstacao "Norte" Estacao.verao = 0 ∧
    (contagensDe dfE2E).porEstacao "Norte" Estacao.outono = 0 ∧
    (contagensDe dfE2E).porEstacao "Norte" Estacao.inverno = 0 ∧
    (contagensDe dfE2E).porEstacao "Norte" Estacao.primavera = 0 ∧
    (extrair_ocorrencias_por_estacao fsE2E).particao Estacao.verao = [ftE2E1] ∧
    (extrair_ocorrencias_por_estacao fsE2E).particao Estacao.inverno = [ftE2E2] ∧
    (extrair_ocorrencias_por_estacao fsE2E).particao Estacao.outono = [] ∧
    (extrair_ocorrencias_por_estacao fsE2E).particao Estacao.primavera = [] ∧
    (extrair_ocorrencias_por_estacao fsE2E).semData = 1 ∧
    (extrair_ocorrencias_por_estacao fsE2E).semEstacao = 0 := by decide

/-- Witness for C5 at a concrete frame. -/
theorem soma_estacoes_le_total_witness :
    (contagensDe dfC5).porEstacao "Centro" .verao +
      (contagensDe dfC5).porEstacao "Centro" .outono +
      (contagensDe dfC5).porEstacao "Centro" .inverno +
      (contagensDe dfC5).porEstacao "Centro" .primavera ≤
      (contagensDe dfC5).total "Centro" := by
  have h := soma_estacoes_le_total dfC5 (contagensDe dfC5) (by rw [contar_ok dfC5 (by decide)]; rfl) "Centro"
  exact h

end GeojsonCleaning
